import Mathlib

/-!
Shallow embedding of the sync-session orchestrator in
`chrome/content/zotero/xpcom/sync/syncRunner.js` (Zotero.Sync.Runner_Module),
together with theorems checking the natural-language specification's claims
against it.  Each definition mirrors one function (or a delimited fragment of
one function) of the source file; line numbers in the doc comments refer to
that file.
-/

namespace ZoteroSync

/-- The error types recognised by `getPrimaryErrorType` (lines 849-878):
`info`, `warning`, `error`, `upgrade` and the pseudo-type `animate`. -/
inductive ErrType where
  | info
  | warning
  | error
  | upgrade
  | animate
deriving DecidableEq, Repr

/-- The `errorTypes` priority table of `getPrimaryErrorType` (lines 851-859):
`info: 1, warning: 2, error: 3, upgrade: 4, animate: -1`. -/
def errorTypesVal : ErrType → Int
  | .info => 1
  | .warning => 2
  | .error => 3
  | .upgrade => 4
  | .animate => -1

/-- A sync error object as manipulated by the runner: its message, the
`errorType` property (absent = `undefined`), the `fatal` flag, the `added`
dedup marker set by `addError` (line 832), the optional `libraryID`
context, and the `parsed` marker set by `parseError` (line 1125). -/
structure SyncError where
  message : String
  errorType : Option ErrType
  fatal : Bool
  added : Bool
  libraryID : Option Nat
  parsed : Bool
deriving DecidableEq, Repr

/-- `parseError(e)` (lines 1115-1129): `undefined` input yields a bare parsed
record; an already-parsed error is returned unchanged; otherwise the error is
marked parsed and a missing (falsy) `errorType` defaults to `'error'`. -/
def parseError : Option SyncError → SyncError
  | none =>
    { message := "", errorType := none, fatal := false, added := false,
      libraryID := none, parsed := true }
  | some e =>
    if e.parsed then e
    else { e with parsed := true, errorType := some (e.errorType.getD .error) }

/-- The runner's session state touched by the claims: the `_syncInProgress`
flag (line 59), the `_firstInSession` flag (line 58) and the `_errors`
message queue (line 69). -/
structure RunnerState where
  syncInProgress : Bool
  firstInSession : Bool
  errors : List SyncError
deriving DecidableEq, Repr

/-- `addError(e, libraryID)` (lines 830-838): a no-op if `e.added` is already
set; otherwise marks the object, attaches `libraryID` when that argument is
truthy (so `0`, the user library, is NOT attached), logs, and pushes
`parseError(e)` onto `_errors`.  Since JS mutates the shared object, the
updated error value is returned alongside the new state. -/
def addError (st : RunnerState) (e : SyncError) (libraryID : Option Nat) :
    RunnerState × SyncError :=
  if e.added then (st, e)
  else
    let e1 := { e with added := true }
    let e2 :=
      match libraryID with
      | some l => if l ≠ 0 then { e1 with libraryID := some l } else e1
      | none => e1
    let e3 := parseError (some e2)
    ({ st with errors := st.errors ++ [e3] }, e3)

/-- `getErrorsByLibrary(libraryID)` (lines 841-843): filters `_errors` by
strict equality `e.libraryID === libraryID`; an error without an attached
`libraryID` (`undefined`) never matches a numeric argument. -/
def getErrorsByLibrary (st : RunnerState) (libraryID : Nat) : List SyncError :=
  st.errors.filter (fun e => e.libraryID == some libraryID)

/-- The accumulator loop of `getPrimaryErrorType` (lines 860-877): `state`
starts as `false` (`none` here); a fatal error short-circuits to `'error'`;
a missing `errorType` or one with a negative priority (`animate`) is skipped;
otherwise `state` is replaced whenever the current priority is strictly
greater. -/
def getPrimaryErrorTypeLoop : List SyncError → Option ErrType → Option ErrType
  | [], state => state
  | e :: rest, state =>
    if e.fatal then some .error
    else
      match e.errorType with
      | none => getPrimaryErrorTypeLoop rest state
      | some t =>
        if errorTypesVal t < 0 then getPrimaryErrorTypeLoop rest state
        else
          match state with
          | none => getPrimaryErrorTypeLoop rest (some t)
          | some s =>
            if errorTypesVal s < errorTypesVal t then
              getPrimaryErrorTypeLoop rest (some t)
            else getPrimaryErrorTypeLoop rest state

/-- `getPrimaryErrorType(errors)` (lines 849-878).  `none` models the JS
return value `false`. -/
def getPrimaryErrorType (errors : List SyncError) : Option ErrType :=
  getPrimaryErrorTypeLoop errors none

/-- The entry fragment of `sync()` (lines 92-103): unconditionally clears the
`_errors` message list, then, if a sync is already in progress, shows a
front-window-only notification (pure UI; no session state) and returns
`false`; otherwise sets `_syncInProgress` and continues.  The returned `Bool`
is `false` exactly when the call bails out on the reentrancy check. -/
def syncEntry (st : RunnerState) : Bool × RunnerState :=
  let st1 : RunnerState := { st with errors := [] }
  if st1.syncInProgress then (false, st1)
  else (true, { st1 with syncInProgress := true })

/-- `Zotero.Utilities.arrayDiff(a, b)`: the elements of `a` that are not in
`b` (used at lines 182, 309, 348-349, 397, 466). -/
def arrayDiff (a b : List Nat) : List Nat :=
  a.filter (fun x => !(b.contains x))

/-- The environment of the retry loop of `sync()` (lines 173-200): for each
attempt number, the outcome of `_doDataSync` (the successful libraries),
`_doFileSync` and `_doFullTextSync` (the libraries needing another data
sync), each possibly rejecting. -/
structure SyncEnv where
  dataPhase : Nat → List Nat → Except String (List Nat)
  filePhase : Nat → List Nat → Except String (List Nat)
  fullTextPhase : Nat → List Nat → Except String (List Nat)

/-- One iteration of the retry loop as recorded for verification: the
`attempt` counter at the top of the pass, the working set handed to each
phase and the set it returned (`none` when the pass ended before that
phase ran or when the phase rejected), and the value of
`successfulLibraries` right after the data-phase bookkeeping of line 182. -/
structure AttemptTrace where
  attempt : Nat
  dataInput : List Nat
  dataOutput : Option (List Nat)
  successfulAfterData : Option (List Nat)
  fileInput : Option (List Nat)
  fileOutput : Option (List Nat)
  fullTextInput : Option (List Nat)
  fullTextOutput : Option (List Nat)
deriving DecidableEq, Repr

/-- How the retry loop of `sync()` ends: a normal exit, the
`"Too many sync attempts -- stopping"` throw of line 178 (recording the
value of `attempt` at the failed check), or a rejection from one of the
three phase calls. -/
inductive SyncLoopResult where
  | completed
  | tooManyAttempts (attempt : Nat)
  | phaseError (msg : String)
deriving DecidableEq, Repr

/-- The retry loop of `sync()` (lines 173-200), with the per-pass trace.
`while (librariesToSync.length)`; if `attempt > 3` throw; run
`_doDataSync(librariesToSync)`; delete `arrayDiff(librariesToSync,
nextLibraries)` from `successfulLibraries`; run `_doFileSync(nextLibraries)`;
if its result is non-empty, `attempt++` and restart; otherwise run
`_doFullTextSync([...successfulLibraries])`; if its result is non-empty,
`attempt++` and restart; otherwise break. -/
def syncLoop (env : SyncEnv) (attempt : Nat)
    (librariesToSync successfulLibraries : List Nat) :
    SyncLoopResult × List AttemptTrace :=
  if librariesToSync.isEmpty then (.completed, [])
  else if _h : 3 < attempt then (.tooManyAttempts attempt, [])
  else
    match env.dataPhase attempt librariesToSync with
    | .error msg =>
      (.phaseError msg,
       [⟨attempt, librariesToSync, none, none, none, none, none, none⟩])
    | .ok nextLibraries =>
      let successful := successfulLibraries.filter
        (fun l => !((arrayDiff librariesToSync nextLibraries).contains l))
      match env.filePhase attempt nextLibraries with
      | .error msg =>
        (.phaseError msg,
         [⟨attempt, librariesToSync, some nextLibraries, some successful,
           some nextLibraries, none, none, none⟩])
      | .ok fileResync =>
        if fileResync.isEmpty then
          match env.fullTextPhase attempt successful with
          | .error msg =>
            (.phaseError msg,
             [⟨attempt, librariesToSync, some nextLibraries, some successful,
               some nextLibraries, some fileResync, some successful, none⟩])
          | .ok ftResync =>
            let tr : AttemptTrace :=
              ⟨attempt, librariesToSync, some nextLibraries, some successful,
               some nextLibraries, some fileResync, some successful,
               some ftResync⟩
            if ftResync.isEmpty then (.completed, [tr])
            else
              let rest := syncLoop env (attempt + 1) ftResync successful
              (rest.1, tr :: rest.2)
        else
          let tr : AttemptTrace :=
            ⟨attempt, librariesToSync, some nextLibraries, some successful,
             some nextLibraries, some fileResync, none, none⟩
          let rest := syncLoop env (attempt + 1) fileResync successful
          (rest.1, tr :: rest.2)
termination_by 4 - attempt
decreasing_by all_goals omega

/-- An environment in which every data engine succeeds on its whole input and
the file phase keeps demanding another data sync for its whole input: an
unbounded stream of resync signals (spec scenario C). -/
def alwaysResyncEnv : SyncEnv where
  dataPhase := fun _ l => .ok l
  filePhase := fun _ l => .ok l
  fullTextPhase := fun _ l => .ok l

/-! ### Data phase (`_doDataSync`, lines 515-554) -/

/-- The outcome of one data engine's `start()` as seen by `_doDataSync`:
success, a `Zotero.Sync.UserCancelledException` (with or without its
`advanceToNextLibrary` flag), or any other rejection. -/
inductive DataEngineOutcome where
  | ok
  | cancelled (advanceToNextLibrary : Bool)
  | reject (e : SyncError)
deriving DecidableEq, Repr

/-- The per-library loop of `_doDataSync` (lines 517-547): collect successful
libraries; a cancellation with `advanceToNextLibrary` skips the library; a
cancellation without it is rethrown (modelled as `none`, aborting the whole
pass); any other failure is passed to `options.onError` (the queued-error
list here) and, when `stopOnError` or `e.fatal`, stops the caller and breaks
out of the loop. -/
def doDataSyncLoop (engine : Nat → DataEngineOutcome) (stopOnError : Bool) :
    List Nat → Option (List Nat × List SyncError)
  | [] => some ([], [])
  | l :: rest =>
    match engine l with
    | .ok =>
      (doDataSyncLoop engine stopOnError rest).map
        (fun p => (l :: p.1, p.2))
    | .cancelled true => doDataSyncLoop engine stopOnError rest
    | .cancelled false => none
    | .reject e =>
      if stopOnError || e.fatal then some ([], [e])
      else
        (doDataSyncLoop engine stopOnError rest).map
          (fun p => (p.1, e :: p.2))

/-- What a completed `_doDataSync` pass produced: the returned
`successfulLibraries`, the errors routed to `options.onError`, and whether
`Zotero.Sync.Data.Local.updateLastSyncTime()` was called (line 550-552). -/
structure DataSyncOutput where
  successfulLibraries : List Nat
  queuedErrors : List SyncError
  updatedLastSyncTime : Bool
deriving DecidableEq, Repr

/-- `_doDataSync(libraries, options)` (lines 515-554).  `none` models the
pass rejecting with a rethrown cancellation; otherwise the last-sync time is
updated iff `!libraries.length || successfulLibraries.length` (line 550). -/
def doDataSync (engine : Nat → DataEngineOutcome) (stopOnError : Bool)
    (libraries : List Nat) : Option DataSyncOutput :=
  (doDataSyncLoop engine stopOnError libraries).map
    (fun p => ⟨p.1, p.2, libraries.isEmpty || !p.1.isEmpty⟩)

/-! ### File phase (`_doFileSync`, lines 560-607) -/

/-- The result object of a storage engine's `start()` (line 580). -/
structure FileResults where
  syncRequired : Bool
  fileSyncRequired : Bool
deriving DecidableEq, Repr

/-- One run of the storage engine for a library: a result object or a
rejection. -/
inductive FileEngineOutcome where
  | ok (results : FileResults)
  | reject (e : SyncError)
deriving DecidableEq, Repr

/-- How the inner `while (true)` retry loop of `_doFileSync`
(lines 573-589) ends for one library: a clean break, a break after pushing
the library onto `resyncLibraries` (`results.syncRequired`), or a thrown
error (an engine rejection, or the `"Too many file sync attempts"` throw of
line 576 when the `tries` budget is exhausted). -/
inductive LibFileOutcome where
  | finished
  | resync
  | failed (e : SyncError)
deriving DecidableEq, Repr

/-- The error thrown at line 576 when the per-library attempt budget is
exhausted. -/
def tooManyFileSyncAttempts (libraryID : Nat) : SyncError :=
  { message := "Too many file sync attempts for library " ++ toString libraryID,
    errorType := none, fatal := false, added := false, libraryID := none,
    parsed := false }

/-- The inner retry loop of `_doFileSync` for one library (lines 573-589):
`tries` starts at 3; when it reaches 0 the budget throw fires; otherwise the
engine runs (run number `runs`); `results.syncRequired` records the library
for another data sync and breaks; `results.fileSyncRequired` restarts the
loop with one fewer try.  Also returns the total number of engine runs. -/
def fileSyncLibraryLoop (engineRuns : Nat → FileEngineOutcome)
    (libraryID : Nat) : Nat → Nat → LibFileOutcome × Nat
  | 0, runs => (.failed (tooManyFileSyncAttempts libraryID), runs)
  | tries + 1, runs =>
    match engineRuns runs with
    | .reject e => (.failed e, runs + 1)
    | .ok results =>
      if results.syncRequired then (.resync, runs + 1)
      else if results.fileSyncRequired then
        fileSyncLibraryLoop engineRuns libraryID tries (runs + 1)
      else (.finished, runs + 1)

/-- What a phase pass over a library list produced: the returned
`resyncLibraries`, the errors routed to `options.onError`, the libraries
whose processing was reached before any break, and whether
`options.caller.stop()` was invoked. -/
structure PhaseResult where
  resyncLibraries : List Nat
  queuedErrors : List SyncError
  processed : List Nat
  stopped : Bool
deriving DecidableEq, Repr

/-- `_doFileSync(libraries, options)` (lines 560-607): for each library run
the inner retry loop (budget 3); a thrown error is routed to
`options.onError` and, when `stopOnError` or `e.fatal`, stops the caller and
breaks; otherwise iteration continues with the next library. -/
def doFileSync (engineRuns : Nat → Nat → FileEngineOutcome)
    (stopOnError : Bool) : List Nat → PhaseResult
  | [] => ⟨[], [], [], false⟩
  | l :: rest =>
    match fileSyncLibraryLoop (engineRuns l) l 3 0 with
    | (.finished, _) =>
      let r := doFileSync engineRuns stopOnError rest
      { r with processed := l :: r.processed }
    | (.resync, _) =>
      let r := doFileSync engineRuns stopOnError rest
      { r with resyncLibraries := l :: r.resyncLibraries,
               processed := l :: r.processed }
    | (.failed e, _) =>
      if stopOnError || e.fatal then ⟨[], [e], [l], true⟩
      else
        let r := doFileSync engineRuns stopOnError rest
        { r with queuedErrors := e :: r.queuedErrors,
                 processed := l :: r.processed }

/-! ### Full-text phase (`_doFullTextSync`, lines 613-648) -/

/-- One run of the full-text engine for a library: success, or a rejection
`e` together with whether the exception is a
`Zotero.HTTP.UnexpectedStatusException` and its HTTP status (line 629). -/
inductive FullTextEngineOutcome where
  | ok
  | reject (unexpectedStatus : Bool) (status : Nat) (e : SyncError)
deriving DecidableEq, Repr

/-- The per-library loop of `_doFullTextSync` (lines 619-642): an
`UnexpectedStatusException` with status 412 pushes the library onto
`resyncLibraries` and continues silently (no logging, no `onError`); any
other rejection is routed to `options.onError` and, when `stopOnError` or
`e.fatal`, stops the caller and breaks. -/
def doFullTextSyncLoop (engine : Nat → FullTextEngineOutcome)
    (stopOnError : Bool) : List Nat → PhaseResult
  | [] => ⟨[], [], [], false⟩
  | l :: rest =>
    match engine l with
    | .ok =>
      let r := doFullTextSyncLoop engine stopOnError rest
      { r with processed := l :: r.processed }
    | .reject unexpectedStatus status e =>
      if unexpectedStatus && status == 412 then
        let r := doFullTextSyncLoop engine stopOnError rest
        { r with resyncLibraries := l :: r.resyncLibraries,
                 processed := l :: r.processed }
      else if stopOnError || e.fatal then ⟨[], [e], [l], true⟩
      else
        let r := doFullTextSyncLoop engine stopOnError rest
        { r with queuedErrors := e :: r.queuedErrors,
                 processed := l :: r.processed }

/-- `_doFullTextSync(libraries, options)` (lines 613-648): returns
immediately if the `sync.fulltext.enabled` pref is off (line 614), else runs
the per-library loop. -/
def doFullTextSync (fullTextEnabled : Bool)
    (engine : Nat → FullTextEngineOutcome) (stopOnError : Bool)
    (libraries : List Nat) : PhaseResult :=
  if !fullTextEnabled then ⟨[], [], [], false⟩
  else doFullTextSyncLoop engine stopOnError libraries

/-! ### Library-set resolution (`checkLibraries`, lines 298-504) -/

/-- `Zotero.Libraries.get(id).libraryType` as compared at lines 317-318 and
line 394. -/
inductive LibraryType where
  | user
  | publications
  | group
  | feed
deriving DecidableEq, Repr

/-- The `access.groups` field of the key info: an empty object
(`Zotero.Utilities.isEmpty`), all-group access (`access.groups.all` truthy),
or enumerated per-group grants with `all` falsy. -/
inductive GroupAccess where
  | empty
  | all
  | enumerated (groupIDs : List Nat)
deriving DecidableEq, Repr

/-- The access grant of the key (`keyInfo.access`): whether
`access.user && access.user.library` holds, and the group-access mode. -/
structure KeyAccess where
  userLibrary : Bool
  groups : GroupAccess
deriving DecidableEq, Repr

/-- The three buttons of the "Group Not Found" prompt (lines 434-456). -/
inductive MissingGroupChoice where
  | removeGroup
  | cancelSync
  | keepGroup
deriving DecidableEq, Repr

/-- The external collaborators consulted by `checkLibraries`: local library
and group registries, the skip lists, the remote API (`getGroupVersions`,
`getGroup`), the missing-group prompt and the permission-change check. -/
structure CheckLibrariesEnv where
  userLibraryID : Nat
  publicationsLibraryID : Nat
  skippedLibraries : List Nat
  skippedGroups : List Nat
  libraryType : Nat → LibraryType
  remoteGroupVersions : List (Nat × Nat)
  localGroupVersion : Nat → Option Nat
  groupLibraryID : Nat → Nat
  localGroupIDs : List Nat
  groupIDFromLibraryID : Nat → Nat
  missingGroupChoice : Nat → MissingGroupChoice
  remoteGroupInfo : Nat → Option Nat
  checkLibraryForAccess : Nat → Bool

/-- The access check over explicitly requested libraries (lines 316-324): a
`user` or `publications` library without personal-library access throws. -/
def checkLibraryAccessLoop (env : CheckLibrariesEnv) (access : KeyAccess) :
    List Nat → Except String Unit
  | [] => .ok ()
  | libraryID :: rest =>
    let t := env.libraryType libraryID
    if (t == .user || t == .publications) && !access.userLibrary then
      .error ("Key does not have access to library " ++ toString libraryID)
    else checkLibraryAccessLoop env access rest

/-- The `for (let id in remoteGroupVersions)` loop (lines 354-380),
accumulating additions to `libraries` and `groupsToDownload`.  In sync-all
mode a missing or outdated local group is queued for download, an up-to-date
one contributes its library directly; in explicit mode remote groups not
locally known or not requested are ignored and outdated ones are queued. -/
def remoteGroupLoop (env : CheckLibrariesEnv) (syncAllLibraries : Bool) :
    List (Nat × Nat) → List Nat → List Nat → List Nat × List Nat
  | [], libraries, groupsToDownload => (libraries, groupsToDownload)
  | (id, remoteVersion) :: rest, libraries, groupsToDownload =>
    match env.localGroupVersion id with
    | none =>
      if syncAllLibraries then
        remoteGroupLoop env syncAllLibraries rest libraries
          (groupsToDownload ++ [id])
      else remoteGroupLoop env syncAllLibraries rest libraries groupsToDownload
    | some v =>
      if syncAllLibraries then
        if v < remoteVersion then
          remoteGroupLoop env syncAllLibraries rest libraries
            (groupsToDownload ++ [id])
        else
          remoteGroupLoop env syncAllLibraries rest
            (libraries ++ [env.groupLibraryID id]) groupsToDownload
      else
        if !(libraries.contains (env.groupLibraryID id)) then
          remoteGroupLoop env syncAllLibraries rest libraries groupsToDownload
        else if v < remoteVersion then
          remoteGroupLoop env syncAllLibraries rest libraries
            (groupsToDownload ++ [id])
        else
          remoteGroupLoop env syncAllLibraries rest libraries groupsToDownload

/-- The group-access section of `checkLibraries` (lines 330-403): with a
non-empty `access.groups` lacking `all`, throws
`"Full group access is currently required"` (line 339); with `all`, filters
skip-listed remote groups (sync-all mode), runs `remoteGroupLoop`, and
computes `remotelyMissingGroups`; with no group access at all, every local
group is remotely missing (line 402).  Returns
`(libraries, remotelyMissingGroups, groupsToDownload)`. -/
def groupSection (env : CheckLibrariesEnv) (access : KeyAccess)
    (syncAllLibraries : Bool) (libraries : List Nat) :
    Except String (List Nat × List Nat × List Nat) :=
  match access.groups with
  | .empty => .ok (libraries, env.localGroupIDs, [])
  | .enumerated _ => .error "Full group access is currently required"
  | .all =>
    let remoteGroupVersions0 := env.remoteGroupVersions
    let remoteGroupIDs0 := remoteGroupVersions0.map (fun p => p.1)
    let filtered :=
      if syncAllLibraries then
        let newGroups := arrayDiff remoteGroupIDs0 env.skippedGroups
        (remoteGroupVersions0.filter (fun p => newGroups.contains p.1),
         newGroups)
      else (remoteGroupVersions0, remoteGroupIDs0)
    let looped := remoteGroupLoop env syncAllLibraries filtered.1 libraries []
    let localGroups :=
      if syncAllLibraries then
        env.localGroupIDs.filter (fun id => !(env.skippedGroups.contains id))
      else
        (looped.1.filter (fun id => env.libraryType id == .group)).map
          env.groupIDFromLibraryID
    .ok (looped.1, arrayDiff localGroups filtered.2, looped.2)

/-- Outcome of the "Group Not Found" prompts (lines 417-457): the sync is
cancelled (`return []`, line 452), or it proceeds with the groups the user
chose to remove. -/
inductive MissingGroupsOutcome where
  | cancelled
  | proceed (removedGroups : List Nat)
deriving DecidableEq, Repr

/-- The prompt loop over `remotelyMissingGroups` (lines 420-457). -/
def missingGroupLoop (env : CheckLibrariesEnv) :
    List Nat → List Nat → MissingGroupsOutcome
  | [], removedGroups => .proceed removedGroups
  | g :: rest, removedGroups =>
    match env.missingGroupChoice g with
    | .removeGroup => missingGroupLoop env rest (removedGroups ++ [g])
    | .cancelSync => .cancelled
    | .keepGroup => missingGroupLoop env rest removedGroups

/-- The metadata-download loop over `groupsToDownload` (lines 470-501): a
group the API no longer returns throws; for a locally existing group whose
permission check declines, the group is skipped; otherwise the group is
saved and its library joins the list. -/
def downloadGroupsLoop (env : CheckLibrariesEnv) :
    List Nat → List Nat → Except String (List Nat)
  | [], libraries => .ok libraries
  | groupID :: rest, libraries =>
    match env.remoteGroupInfo groupID with
    | none => .error ("Group " ++ toString groupID ++ " not found")
    | some _ =>
      match env.localGroupVersion groupID with
      | some _ =>
        if !(env.checkLibraryForAccess groupID) then
          downloadGroupsLoop env rest libraries
        else downloadGroupsLoop env rest (libraries ++ [env.groupLibraryID groupID])
      | none =>
        downloadGroupsLoop env rest (libraries ++ [env.groupLibraryID groupID])

/-- `[...new Set(libraries)]` (line 503): deduplication keeping the first
occurrence of each element. -/
def dedupFirstAux : List Nat → List Nat → List Nat
  | [], _ => []
  | x :: xs, seen =>
    if seen.contains x then dedupFirstAux xs seen
    else x :: dedupFirstAux xs (x :: seen)

/-- See `dedupFirstAux`. -/
def dedupFirst (l : List Nat) : List Nat := dedupFirstAux l []

/-- `checkLibraries(client, options, keyInfo, libraries)` (lines 298-504):
seeds the library list (sync-all mode: personal and publications libraries
minus the skip list, when granted; explicit mode: access-check each request),
resolves group access and remote/local group state, prompts for remotely
missing groups (a cancel answer aborts with `[]`), downloads missing or
outdated group metadata, and returns the deduplicated library list. -/
def checkLibraries (env : CheckLibrariesEnv) (access : KeyAccess)
    (libraries0 : List Nat) : Except String (List Nat) :=
  let syncAllLibraries := libraries0.isEmpty
  let firstStep : Except String (List Nat) :=
    if syncAllLibraries then
      .ok (if access.userLibrary then
             arrayDiff [env.userLibraryID, env.publicationsLibraryID]
               env.skippedLibraries
           else libraries0)
    else
      match checkLibraryAccessLoop env access libraries0 with
      | .error msg => .error msg
      | .ok _ => .ok libraries0
  match firstStep with
  | .error msg => .error msg
  | .ok libraries1 =>
    match groupSection env access syncAllLibraries libraries1 with
    | .error msg => .error msg
    | .ok (libraries2, remotelyMissingGroups, groupsToDownload) =>
      let afterMissing :=
        if remotelyMissingGroups.isEmpty then MissingGroupsOutcome.proceed []
        else missingGroupLoop env remotelyMissingGroups []
      match afterMissing with
      | .cancelled => .ok []
      | .proceed removedGroups =>
        let libraries3 :=
          if remotelyMissingGroups.isEmpty then libraries2
          else arrayDiff libraries2 (removedGroups.map env.groupLibraryID)
        match downloadGroupsLoop env groupsToDownload libraries3 with
        | .error msg => .error msg
        | .ok libraries4 => .ok (dedupFirst libraries4)

/-! ### Helper definitions for stating the claims -/

/-- The state update applied by one non-fatal step of
`getPrimaryErrorTypeLoop`: skip a missing or negative-priority type,
otherwise keep the strictly greater of the two priorities. -/
def nextState (e : SyncError) (state : Option ErrType) : Option ErrType :=
  match e.errorType with
  | none => state
  | some t =>
    if errorTypesVal t < 0 then state
    else
      match state with
      | none => some t
      | some s => if errorTypesVal s < errorTypesVal t then some t else state

/-- The error types of a list that take part in the precedence computation of
`getPrimaryErrorType`: present (`errorType` set) and not negative-priority
(which excludes `animate`). -/
def contributingTypes : List SyncError → List ErrType
  | [] => []
  | e :: rest =>
    match e.errorType with
    | none => contributingTypes rest
    | some t =>
      if errorTypesVal t < 0 then contributingTypes rest
      else t :: contributingTypes rest

/-- Modelled from the claim's words, for comparison with the code: "the
highest severity" of a list of errors, i.e. the maximum `errorType` under the
fixed precedence `info(1) < warning(2) < error(3) < upgrade(4)` with
`animate` excluded. -/
def highestSeverity (errors : List SyncError) : Option ErrType :=
  (contributingTypes errors).foldl
    (fun acc t =>
      match acc with
      | none => some t
      | some s => if errorTypesVal s < errorTypesVal t then some t else some s)
    none

/-! ### Concrete sample values used by witnesses and counterexamples -/

/-- A not-yet-added, not-yet-parsed engine error. -/
def freshError : SyncError :=
  { message := "engine failure", errorType := some .error, fatal := false,
    added := false, libraryID := none, parsed := false }

/-- An error already queued by a running session. -/
def sampleQueuedError : SyncError :=
  { freshError with added := true, parsed := true }

/-- A runner state in the middle of a session: sync in progress and one
queued error. -/
def inProgressState : RunnerState :=
  { syncInProgress := true, firstInSession := false,
    errors := [sampleQueuedError] }

/-- A fatal error whose declared type is `upgrade`, the top of the
precedence order. -/
def upgradeFatalError : SyncError :=
  { message := "", errorType := some .upgrade, fatal := true, added := false,
    libraryID := none, parsed := true }

/-- A non-fatal warning. -/
def warningError : SyncError :=
  { message := "w", errorType := some .warning, fatal := false,
    added := false, libraryID := none, parsed := true }

/-- A non-fatal informational message. -/
def infoError : SyncError :=
  { message := "i", errorType := some .info, fatal := false,
    added := false, libraryID := none, parsed := true }

/-- The first trace entry of the always-resync scenario. -/
def resyncTrace1 : AttemptTrace :=
  ⟨1, [1], some [1], some [1], some [1], some [1], none, none⟩

/-- A storage engine that always reports `fileSyncRequired`. -/
def fileRepeatEngine : Nat → FileEngineOutcome :=
  fun _ => .ok ⟨false, true⟩

/-- Storage engines that always report `syncRequired` for every library. -/
def fileResyncEngines : Nat → Nat → FileEngineOutcome :=
  fun _ _ => .ok ⟨true, false⟩

/-- A full-text engine rejection that is not a 412. -/
def fullTextPlainError : SyncError :=
  { message := "full-text failure", errorType := some .error, fatal := false,
    added := false, libraryID := none, parsed := false }

/-- A full-text engine that rejects with HTTP 412 for library 1 and a plain
error for library 2. -/
def fullTextMixedEngine : Nat → FullTextEngineOutcome :=
  fun l => if l == 1 then .reject true 412 fullTextPlainError
           else if l == 2 then .reject false 0 fullTextPlainError
           else .ok

/-- Data engines that succeed for every library. -/
def dataOkEngine : Nat → DataEngineOutcome := fun _ => .ok

/-- Data engines that reject (non-fatally) for every library. -/
def dataFailEngine : Nat → DataEngineOutcome := fun _ => .reject freshError

/-- A concrete resolution environment for the witnesses: one remote group
(id 10, version 5) that also exists locally at version 5. -/
def sampleLibEnv : CheckLibrariesEnv :=
  { userLibraryID := 1
    publicationsLibraryID := 4
    skippedLibraries := []
    skippedGroups := []
    libraryType := fun id => if id == 1 then .user
                             else if id == 4 then .publications else .group
    remoteGroupVersions := [(10, 5)]
    localGroupVersion := fun id => if id == 10 then some 5 else none
    groupLibraryID := fun id => id + 100
    localGroupIDs := [10]
    groupIDFromLibraryID := fun id => id - 100
    missingGroupChoice := fun _ => .keepGroup
    remoteGroupInfo := fun id => if id == 10 then some 5 else none
    checkLibraryForAccess := fun _ => true }

/-- An access grant with enumerated (partial) group access. -/
def enumeratedAccess : KeyAccess :=
  { userLibrary := true, groups := .enumerated [10] }

/-! ### Theorems -/

/-- C1, counterexample: calling `sync()` while a session is in progress does
return `false`, but it mutates session state: the session's error queue,
non-empty beforehand, is unconditionally cleared by line 94 before the
reentrancy check of line 97 runs. -/
theorem C1_counterexample :
    (syncEntry inProgressState).1 = false ∧
    (syncEntry inProgressState).2.errors = [] ∧
    inProgressState.errors ≠ [] ∧
    (syncEntry inProgressState).2 ≠ inProgressState := by
  refine ⟨rfl, rfl, ?_, ?_⟩ <;> decide

/-- C1, amended: a `sync()` call made while a session is in progress returns
`false` and leaves every session field unchanged except the error queue,
which it unconditionally clears. -/
theorem C1_amended (st : RunnerState) (h : st.syncInProgress = true) :
    syncEntry st = (false, { st with errors := [] }) := by
  simp [syncEntry, h]

/-- Witness for `C1_amended` at the concrete in-progress state. -/
theorem C1_amended_witness :
    inProgressState.syncInProgress = true ∧
    syncEntry inProgressState = (false, { inProgressState with errors := [] }) :=
  ⟨rfl, C1_amended inProgressState rfl⟩

/-- C5: `addError` is a no-op on an error already marked `added`; on a fresh
error it marks it, queues exactly one entry, and a second call with the
(updated) same object changes nothing. -/
theorem C5_addError_dedup (st : RunnerState) (e : SyncError)
    (lib lib2 : Option Nat) :
    (e.added = true → addError st e lib = (st, e)) ∧
    (e.added = false →
      (addError st e lib).2.added = true ∧
      (addError st e lib).1.errors.length = st.errors.length + 1 ∧
      addError (addError st e lib).1 (addError st e lib).2 lib2 =
        ((addError st e lib).1, (addError st e lib).2)) := by
  have noop : ∀ (st2 : RunnerState) (x : SyncError) (l2 : Option Nat),
      x.added = true → addError st2 x l2 = (st2, x) := by
    intro st2 x l2 hx; simp [addError, hx]
  refine ⟨fun h => noop st e lib h, fun h => ?_⟩
  have h2 : (addError st e lib).2.added = true := by
    cases lib with
    | none => cases hp : e.parsed <;> simp [addError, h, parseError, hp]
    | some l =>
      by_cases hl : l = 0 <;> cases hp : e.parsed <;>
        simp [addError, h, parseError, hl, hp]
  have h3 : (addError st e lib).1.errors.length = st.errors.length + 1 := by
    cases lib with
    | none => simp [addError, h]
    | some l => by_cases hl : l = 0 <;> simp [addError, h, hl]
  exact ⟨h2, h3, noop _ _ lib2 h2⟩

/-- Witness for `C5_addError_dedup` on a fresh error. -/
theorem C5_addError_dedup_witness :
    freshError.added = false ∧
    ((addError inProgressState freshError none).2.added = true ∧
     (addError inProgressState freshError none).1.errors.length =
       inProgressState.errors.length + 1 ∧
     addError (addError inProgressState freshError none).1
         (addError inProgressState freshError none).2 none =
       ((addError inProgressState freshError none).1,
        (addError inProgressState freshError none).2)) :=
  ⟨rfl, (C5_addError_dedup inProgressState freshError none none).2 rfl⟩

/-- `parseError` never changes the `libraryID` of an existing error. -/
theorem parseError_libraryID (x : SyncError) :
    (parseError (some x)).libraryID = x.libraryID := by
  cases hp : x.parsed <;> simp [parseError, hp]

/-- C10: `addError` attaches a library context only for a truthy `libraryID`
argument; the user library's ID 0 is falsy, so an error queued with
`libraryID = 0` keeps no context and `getErrorsByLibrary 0` does not
return it. -/
theorem C10_addError_library_context (st : RunnerState) (e : SyncError)
    (h : e.added = false) (hl : e.libraryID = none) :
    (∀ l : Nat, l ≠ 0 → ((addError st e (some l)).2).libraryID = some l) ∧
    ((addError st e (some 0)).2).libraryID = none ∧
    ((addError st e none).2).libraryID = none ∧
    getErrorsByLibrary (addError st e (some 0)).1 0 =
      getErrorsByLibrary st 0 := by
  refine ⟨?_, ?_, ?_, ?_⟩
  · intro l hl0
    simp [addError, h, hl0, parseError_libraryID]
  · simp [addError, h, parseError_libraryID, hl]
  · simp [addError, h, parseError_libraryID, hl]
  · have hnone : (parseError (some { e with added := true })).libraryID = none := by
      rw [parseError_libraryID]; exact hl
    simp [addError, h, getErrorsByLibrary, List.filter_append, hnone]

/-- Witness for `C10_addError_library_context` on a fresh error. -/
theorem C10_addError_library_context_witness :
    freshError.added = false ∧ freshError.libraryID = none ∧
    (((addError inProgressState freshError (some 0)).2).libraryID = none ∧
     getErrorsByLibrary (addError inProgressState freshError (some 0)).1 0 =
       getErrorsByLibrary inProgressState 0) :=
  ⟨rfl, rfl,
   (C10_addError_library_context inProgressState freshError rfl rfl).2.1,
   (C10_addError_library_context inProgressState freshError rfl rfl).2.2.2⟩

/-- Every library reported successful by the data-phase loop is one of the
input libraries and its engine completed without error. -/
theorem doDataSyncLoop_successes (engine : Nat → DataEngineOutcome)
    (sOE : Bool) :
    ∀ (libs : List Nat) (succ : List Nat) (errs : List SyncError),
      doDataSyncLoop engine sOE libs = some (succ, errs) →
      ∀ l ∈ succ, l ∈ libs ∧ engine l = .ok := by
  intro libs
  induction libs with
  | nil =>
    intro succ errs hres l hl
    simp [doDataSyncLoop] at hres
    rcases hres with ⟨rfl, rfl⟩
    simp at hl
  | cons a rest ih =>
    intro succ errs hres l hl
    cases ha : engine a with
    | ok =>
      simp only [doDataSyncLoop, ha] at hres
      obtain ⟨⟨s2, e2⟩, hrest, heq⟩ := Option.map_eq_some'.mp hres
      simp only [Prod.mk.injEq] at heq
      obtain ⟨hsucc, _⟩ := heq
      rw [← hsucc] at hl
      rcases List.mem_cons.mp hl with rfl | hmem
      · exact ⟨List.mem_cons_self _ _, ha⟩
      · obtain ⟨hin, hok⟩ := ih s2 e2 hrest l hmem
        exact ⟨List.mem_cons_of_mem _ hin, hok⟩
    | cancelled adv =>
      cases adv with
      | true =>
        simp only [doDataSyncLoop, ha] at hres
        obtain ⟨hin, hok⟩ := ih succ errs hres l hl
        exact ⟨List.mem_cons_of_mem _ hin, hok⟩
      | false => simp [doDataSyncLoop, ha] at hres
    | reject e0 =>
      cases hc : (sOE || e0.fatal) with
      | true =>
        simp [doDataSyncLoop, ha, hc] at hres
        rcases hres with ⟨rfl, rfl⟩
        simp at hl
      | false =>
        simp only [doDataSyncLoop, ha, hc] at hres
        obtain ⟨⟨s2, e2⟩, hrest, heq⟩ := Option.map_eq_some'.mp hres
        simp only [Prod.mk.injEq] at heq
        obtain ⟨hsucc, _⟩ := heq
        rw [← hsucc] at hl
        obtain ⟨hin, hok⟩ := ih s2 e2 hrest l hl
        exact ⟨List.mem_cons_of_mem _ hin, hok⟩

/-- C9: when a data-phase pass completes, the last-sync timestamp is
refreshed exactly when the input set was empty or at least one library's
data engine completed successfully. -/
theorem C9_update_last_sync (engine : Nat → DataEngineOutcome) (sOE : Bool)
    (libs : List Nat) (out : DataSyncOutput)
    (h : doDataSync engine sOE libs = some out) :
    (out.updatedLastSyncTime = true ↔
      (libs = [] ∨ out.successfulLibraries ≠ [])) ∧
    (∀ l ∈ out.successfulLibraries, l ∈ libs ∧ engine l = .ok) := by
  unfold doDataSync at h
  obtain ⟨⟨succ, errs⟩, hloop, hout⟩ := Option.map_eq_some'.mp h
  constructor
  · rw [← hout]
    simp [List.isEmpty_iff]
  · intro l hl
    rw [← hout] at hl
    exact doDataSyncLoop_successes engine sOE libs succ errs hloop l hl

/-- Witness for `C9_update_last_sync` with engines that all succeed. -/
theorem C9_update_last_sync_witness :
    doDataSync dataOkEngine false [1, 2] = some ⟨[1, 2], [], true⟩ ∧
    ((⟨[1, 2], [], true⟩ : DataSyncOutput).updatedLastSyncTime = true ↔
      (([1, 2] : List Nat) = [] ∨
       (⟨[1, 2], [], true⟩ : DataSyncOutput).successfulLibraries ≠ [])) :=
  ⟨rfl, (C9_update_last_sync dataOkEngine false [1, 2] ⟨[1, 2], [], true⟩ rfl).1⟩

/-- The inner file-sync loop makes at most `tries` further engine runs. -/
theorem fileSyncLibraryLoop_runs_le (eng : Nat → FileEngineOutcome)
    (lid : Nat) : ∀ (tries runs : Nat),
    (fileSyncLibraryLoop eng lid tries runs).2 ≤ runs + tries := by
  intro tries
  induction tries with
  | zero => intro runs; simp [fileSyncLibraryLoop]
  | succ t ih =>
    intro runs
    cases he : eng runs with
    | reject e => simp [fileSyncLibraryLoop, he]
    | ok r =>
      cases hs : r.syncRequired with
      | true => simp [fileSyncLibraryLoop, he, hs]
      | false =>
        cases hf : r.fileSyncRequired with
        | true =>
          simp only [fileSyncLibraryLoop, he, hs, hf]
          have := ih (runs + 1)
          simp only [Bool.false_eq_true, if_false, if_true]
          omega
        | false => simp [fileSyncLibraryLoop, he, hs, hf]

/-- A `fileSyncRequired` engine result makes the inner loop retry in place
with one fewer try. -/
theorem fileSyncLibraryLoop_repeat_step (eng : Nat → FileEngineOutcome)
    (lid t runs : Nat) (he : eng runs = .ok ⟨false, true⟩) :
    fileSyncLibraryLoop eng lid (t + 1) runs =
      fileSyncLibraryLoop eng lid t (runs + 1) := by
  simp [fileSyncLibraryLoop, he]

/-- C6: per library, the file phase runs the storage engine at most 3 times;
`fileSyncRequired` retries in place on a decremented budget whose exhaustion
throws the budget error; `syncRequired` records the library in the returned
resync set and iteration moves on to the next library. -/
theorem C6_file_retry_budget :
    (∀ (eng : Nat → FileEngineOutcome) (lid : Nat),
       (fileSyncLibraryLoop eng lid 3 0).2 ≤ 3) ∧
    (∀ (eng : Nat → FileEngineOutcome) (lid t runs : Nat),
       eng runs = .ok ⟨false, true⟩ →
       fileSyncLibraryLoop eng lid (t + 1) runs =
         fileSyncLibraryLoop eng lid t (runs + 1)) ∧
    (∀ (eng : Nat → FileEngineOutcome) (lid : Nat),
       (∀ i, i < 3 → eng i = .ok ⟨false, true⟩) →
       fileSyncLibraryLoop eng lid 3 0 =
         (.failed (tooManyFileSyncAttempts lid), 3)) ∧
    (∀ (eng : Nat → Nat → FileEngineOutcome) (sOE : Bool) (l : Nat)
       (rest : List Nat),
       (fileSyncLibraryLoop (eng l) l 3 0).1 = .resync →
       doFileSync eng sOE (l :: rest) =
         { doFileSync eng sOE rest with
             resyncLibraries := l :: (doFileSync eng sOE rest).resyncLibraries,
             processed := l :: (doFileSync eng sOE rest).processed }) := by
  refine ⟨?_, ?_, ?_, ?_⟩
  · intro eng lid
    have := fileSyncLibraryLoop_runs_le eng lid 3 0
    omega
  · exact fileSyncLibraryLoop_repeat_step
  · intro eng lid h
    have h0 := h 0 (by omega)
    have h1 := h 1 (by omega)
    have h2 := h 2 (by omega)
    have e1 := fileSyncLibraryLoop_repeat_step eng lid 2 0 h0
    have e2 := fileSyncLibraryLoop_repeat_step eng lid 1 1 h1
    have e3 := fileSyncLibraryLoop_repeat_step eng lid 0 2 h2
    norm_num at e1 e2 e3
    rw [e1, e2, e3]
    simp [fileSyncLibraryLoop]
  · intro eng sOE l rest hres
    rcases hpair : fileSyncLibraryLoop (eng l) l 3 0 with ⟨o, n⟩
    rw [hpair] at hres
    simp only at hres
    subst hres
    simp [doFileSync, hpair]

/-- Witness for `C6_file_retry_budget` with an engine that always demands a
repeat: the budget exhausts after 3 runs. -/
theorem C6_file_retry_budget_witness :
    (∀ i, i < 3 → fileRepeatEngine i = .ok ⟨false, true⟩) ∧
    fileSyncLibraryLoop fileRepeatEngine 7 3 0 =
      (.failed (tooManyFileSyncAttempts 7), 3) :=
  ⟨fun _ _ => rfl, C6_file_retry_budget.2.2.1 fileRepeatEngine 7 (fun _ _ => rfl)⟩

/-- C7: a full-text engine rejection with HTTP status 412 puts the library in
the returned resync set silently (nothing queued) and iteration continues;
any other rejection is queued and halts the remaining libraries exactly when
it is fatal or `stopOnError` is set. -/
theorem C7_fulltext_precondition :
    (∀ (engine : Nat → FullTextEngineOutcome) (sOE : Bool) (l : Nat)
       (rest : List Nat) (e : SyncError),
       engine l = .reject true 412 e →
       doFullTextSyncLoop engine sOE (l :: rest) =
         { doFullTextSyncLoop engine sOE rest with
             resyncLibraries :=
               l :: (doFullTextSyncLoop engine sOE rest).resyncLibraries,
             processed := l :: (doFullTextSyncLoop engine sOE rest).processed }) ∧
    (∀ (engine : Nat → FullTextEngineOutcome) (sOE : Bool) (l : Nat)
       (rest : List Nat) (us : Bool) (status : Nat) (e : SyncError),
       engine l = .reject us status e → (us && status == 412) = false →
       ((sOE || e.fatal) = true →
          doFullTextSyncLoop engine sOE (l :: rest) = ⟨[], [e], [l], true⟩) ∧
       ((sOE || e.fatal) = false →
          doFullTextSyncLoop engine sOE (l :: rest) =
            { doFullTextSyncLoop engine sOE rest with
                queuedErrors :=
                  e :: (doFullTextSyncLoop engine sOE rest).queuedErrors,
                processed := l :: (doFullTextSyncLoop engine sOE rest).processed })) ∧
    (∀ (engine : Nat → FullTextEngineOutcome) (sOE : Bool) (l : Nat)
       (rest : List Nat),
       engine l = .ok →
       doFullTextSyncLoop engine sOE (l :: rest) =
         { doFullTextSyncLoop engine sOE rest with
             processed := l :: (doFullTextSyncLoop engine sOE rest).processed }) ∧
    (∀ (engine : Nat → FullTextEngineOutcome) (sOE : Bool) (libs : List Nat),
       doFullTextSync true engine sOE libs = doFullTextSyncLoop engine sOE libs) := by
  refine ⟨?_, ?_, ?_, ?_⟩
  · intro engine sOE l rest e he
    simp [doFullTextSyncLoop, he]
  · intro engine sOE l rest us status e he hc
    constructor
    · intro hstop
      simp [doFullTextSyncLoop, he, hc, hstop]
    · intro hstop
      simp [doFullTextSyncLoop, he, hc, hstop]
  · intro engine sOE l rest he
    simp [doFullTextSyncLoop, he]
  · intro engine sOE libs
    simp [doFullTextSync]

/-- Witness for `C7_fulltext_precondition`: a 412 rejection for library 1 is
queued for resync silently. -/
theorem C7_fulltext_precondition_witness :
    fullTextMixedEngine 1 = .reject true 412 fullTextPlainError ∧
    doFullTextSyncLoop fullTextMixedEngine false [1] =
      { doFullTextSyncLoop fullTextMixedEngine false [] with
          resyncLibraries :=
            1 :: (doFullTextSyncLoop fullTextMixedEngine false []).resyncLibraries,
          processed :=
            1 :: (doFullTextSyncLoop fullTextMixedEngine false []).processed } :=
  ⟨rfl,
   C7_fulltext_precondition.1 fullTextMixedEngine false 1 [] fullTextPlainError rfl⟩

/-- C8: with enumerated (partial) group access, library-set resolution always
throws (never returns a library set), and — whenever the earlier per-library
access check does not itself throw — the error is precisely the
full-group-access requirement of line 339. -/
theorem C8_enumerated_group_access (env : CheckLibrariesEnv)
    (access : KeyAccess) (libs ids : List Nat)
    (hg : access.groups = .enumerated ids) :
    (∃ msg, checkLibraries env access libs = .error msg) ∧
    (libs.isEmpty = true ∨ checkLibraryAccessLoop env access libs = .ok () →
      checkLibraries env access libs =
        .error "Full group access is currently required") := by
  constructor
  · by_cases he : libs.isEmpty
    · exact ⟨"Full group access is currently required",
        by simp [checkLibraries, he, groupSection, hg]⟩
    · cases hacc : checkLibraryAccessLoop env access libs with
      | error msg => exact ⟨msg, by simp [checkLibraries, he, hacc]⟩
      | ok u =>
        cases u
        exact ⟨"Full group access is currently required",
          by simp [checkLibraries, he, hacc, groupSection, hg]⟩
  · intro hyp
    by_cases he : libs.isEmpty
    · simp [checkLibraries, he, groupSection, hg]
    · rcases hyp with he2 | hacc
      · exact absurd he2 he
      · simp [checkLibraries, he, hacc, groupSection, hg]

/-- Witness for `C8_enumerated_group_access` at a concrete environment and
grant. -/
theorem C8_enumerated_group_access_witness :
    enumeratedAccess.groups = .enumerated [10] ∧
    checkLibraries sampleLibEnv enumeratedAccess [] =
      .error "Full group access is currently required" :=
  ⟨rfl,
   (C8_enumerated_group_access sampleLibEnv enumeratedAccess [] [10] rfl).2
     (Or.inl rfl)⟩

/-- `syncLoop` on an empty working set exits at the `while` condition. -/
theorem syncLoop_eq_empty (env : SyncEnv) (a : Nat) (L S : List Nat)
    (h : L.isEmpty = true) : syncLoop env a L S = (.completed, []) := by
  rw [syncLoop.eq_def]; simp [h]

/-- `syncLoop` with `attempt > 3` aborts before running any phase. -/
theorem syncLoop_eq_budget (env : SyncEnv) (a : Nat) (L S : List Nat)
    (h1 : L.isEmpty = false) (h2 : 3 < a) :
    syncLoop env a L S = (.tooManyAttempts a, []) := by
  rw [syncLoop.eq_def]; simp [h1, h2]

/-- `syncLoop` when the data phase rejects. -/
theorem syncLoop_eq_dataError (env : SyncEnv) (a : Nat) (L S : List Nat)
    (msg : String) (h1 : L.isEmpty = false) (h2 : ¬3 < a)
    (hd : env.dataPhase a L = .error msg) :
    syncLoop env a L S =
      (.phaseError msg, [⟨a, L, none, none, none, none, none, none⟩]) := by
  rw [syncLoop.eq_def]; simp [h1, h2, hd]

/-- `syncLoop` when the file phase rejects. -/
theorem syncLoop_eq_fileError (env : SyncEnv) (a : Nat) (L S next : List Nat)
    (msg : String) (h1 : L.isEmpty = false) (h2 : ¬3 < a)
    (hd : env.dataPhase a L = .ok next)
    (hf : env.filePhase a next = .error msg) :
    syncLoop env a L S =
      (.phaseError msg,
       [⟨a, L, some next,
         some (S.filter (fun l => !((arrayDiff L next).contains l))),
         some next, none, none, none⟩]) := by
  rw [syncLoop.eq_def]; simp [h1, h2, hd, hf]

/-- `syncLoop` when the file phase demands a resync: `attempt + 1` and the
loop restarts with the file phase's result, skipping full-text. -/
theorem syncLoop_eq_fileResync (env : SyncEnv) (a : Nat) (L S next fr : List Nat)
    (h1 : L.isEmpty = false) (h2 : ¬3 < a)
    (hd : env.dataPhase a L = .ok next)
    (hf : env.filePhase a next = .ok fr) (hfr : fr.isEmpty = false) :
    syncLoop env a L S =
      ((syncLoop env (a + 1) fr
          (S.filter (fun l => !((arrayDiff L next).contains l)))).1,
       ⟨a, L, some next,
        some (S.filter (fun l => !((arrayDiff L next).contains l))),
        some next, some fr, none, none⟩ ::
       (syncLoop env (a + 1) fr
          (S.filter (fun l => !((arrayDiff L next).contains l)))).2) := by
  rw [syncLoop.eq_def]; simp [h1, h2, hd, hf, hfr]

/-- `syncLoop` when the full-text phase rejects. -/
theorem syncLoop_eq_ftError (env : SyncEnv) (a : Nat) (L S next fr : List Nat)
    (msg : String) (h1 : L.isEmpty = false) (h2 : ¬3 < a)
    (hd : env.dataPhase a L = .ok next)
    (hf : env.filePhase a next = .ok fr) (hfr : fr.isEmpty = true)
    (hft : env.fullTextPhase a
        (S.filter (fun l => !((arrayDiff L next).contains l))) = .error msg) :
    syncLoop env a L S =
      (.phaseError msg,
       [⟨a, L, some next,
         some (S.filter (fun l => !((arrayDiff L next).contains l))),
         some next, some fr,
         some (S.filter (fun l => !((arrayDiff L next).contains l))), none⟩]) := by
  rw [syncLoop.eq_def]
  simp at hft
  simp [h1, h2, hd, hf, hfr, hft]

/-- `syncLoop` when neither phase demands a resync: the session's data work
is complete. -/
theorem syncLoop_eq_done (env : SyncEnv) (a : Nat) (L S next fr ftr : List Nat)
    (h1 : L.isEmpty = false) (h2 : ¬3 < a)
    (hd : env.dataPhase a L = .ok next)
    (hf : env.filePhase a next = .ok fr) (hfr : fr.isEmpty = true)
    (hft : env.fullTextPhase a
        (S.filter (fun l => !((arrayDiff L next).contains l))) = .ok ftr)
    (hftr : ftr.isEmpty = true) :
    syncLoop env a L S =
      (.completed,
       [⟨a, L, some next,
         some (S.filter (fun l => !((arrayDiff L next).contains l))),
         some next, some fr,
         some (S.filter (fun l => !((arrayDiff L next).contains l))),
         some ftr⟩]) := by
  rw [syncLoop.eq_def]
  simp at hft
  simp [h1, h2, hd, hf, hfr, hft, hftr]

/-- `syncLoop` when the full-text phase demands a resync: `attempt + 1` and
the loop restarts with the full-text phase's result. -/
theorem syncLoop_eq_ftResync (env : SyncEnv) (a : Nat) (L S next fr ftr : List Nat)
    (h1 : L.isEmpty = false) (h2 : ¬3 < a)
    (hd : env.dataPhase a L = .ok next)
    (hf : env.filePhase a next = .ok fr) (hfr : fr.isEmpty = true)
    (hft : env.fullTextPhase a
        (S.filter (fun l => !((arrayDiff L next).contains l))) = .ok ftr)
    (hftr : ftr.isEmpty = false) :
    syncLoop env a L S =
      ((syncLoop env (a + 1) ftr
          (S.filter (fun l => !((arrayDiff L next).contains l)))).1,
       ⟨a, L, some next,
        some (S.filter (fun l => !((arrayDiff L next).contains l))),
        some next, some fr,
        some (S.filter (fun l => !((arrayDiff L next).contains l))),
        some ftr⟩ ::
       (syncLoop env (a + 1) ftr
          (S.filter (fun l => !((arrayDiff L next).contains l)))).2) := by
  rw [syncLoop.eq_def]
  simp at hft
  simp [h1, h2, hd, hf, hfr, hft, hftr]

/-- Every trace entry of the retry loop was begun at an attempt value between
the starting attempt and the cap 3. -/
theorem syncLoop_trace_attempts (env : SyncEnv) :
    ∀ (a : Nat) (L S : List Nat) (t : AttemptTrace),
      t ∈ (syncLoop env a L S).2 → a ≤ t.attempt ∧ t.attempt ≤ 3 := by
  intro a L S
  induction a, L, S using syncLoop.induct env with
  | case1 a L S hemp =>
    intro t ht
    rw [syncLoop_eq_empty env a L S hemp] at ht
    simp at ht
  | case2 a L S hemp hlt =>
    intro t ht
    rw [syncLoop_eq_budget env a L S (by simpa using hemp) hlt] at ht
    simp at ht
  | case3 a L S hemp hlt msg hd =>
    intro t ht
    rw [syncLoop_eq_dataError env a L S msg (by simpa using hemp) hlt hd] at ht
    simp at ht
    subst ht
    simp
    omega
  | case4 a L S hemp hlt next hd msg hf =>
    intro t ht
    rw [syncLoop_eq_fileError env a L S next msg (by simpa using hemp) hlt hd hf] at ht
    simp at ht
    subst ht
    simp
    omega
  | case5 a L S hemp hlt next hd succ fr hf hfre msg hft =>
    intro t ht
    rw [syncLoop_eq_ftError env a L S next fr msg (by simpa using hemp) hlt hd
          hf hfre hft] at ht
    simp at ht
    subst ht
    simp
    omega
  | case6 a L S hemp hlt next hd succ fr hf hfre ftr hft hftre =>
    intro t ht
    rw [syncLoop_eq_done env a L S next fr ftr (by simpa using hemp) hlt hd hf
          hfre hft hftre] at ht
    simp at ht
    subst ht
    simp
    omega
  | case7 a L S hemp hlt next hd succ fr hf hfre ftr hft hftre ih =>
    intro t ht
    rw [syncLoop_eq_ftResync env a L S next fr ftr (by simpa using hemp) hlt hd
          hf hfre hft (by simpa using hftre)] at ht
    rcases List.mem_cons.mp ht with rfl | hmem
    · refine ⟨by simp, by simp; omega⟩
    · have := ih t hmem
      omega
  | case8 a L S hemp hlt next hd succ fr hf hfre ih =>
    intro t ht
    rw [syncLoop_eq_fileResync env a L S next fr (by simpa using hemp) hlt hd
          hf (by simpa using hfre)] at ht
    rcases List.mem_cons.mp ht with rfl | hmem
    · refine ⟨by simp, by simp; omega⟩
    · have := ih t hmem
      omega

/-- Starting from any attempt value at most 4, the only attempt value the
budget abort can report is 4. -/
theorem syncLoop_tooMany_eq_four (env : SyncEnv) :
    ∀ (a : Nat) (L S : List Nat) (b : Nat),
      a ≤ 4 → (syncLoop env a L S).1 = .tooManyAttempts b → b = 4 := by
  intro a L S
  induction a, L, S using syncLoop.induct env with
  | case1 a L S hemp =>
    intro b ha hres
    rw [syncLoop_eq_empty env a L S hemp] at hres
    simp at hres
  | case2 a L S hemp hlt =>
    intro b ha hres
    rw [syncLoop_eq_budget env a L S (by simpa using hemp) hlt] at hres
    simp at hres
    omega
  | case3 a L S hemp hlt msg hd =>
    intro b ha hres
    rw [syncLoop_eq_dataError env a L S msg (by simpa using hemp) hlt hd] at hres
    simp at hres
  | case4 a L S hemp hlt next hd msg hf =>
    intro b ha hres
    rw [syncLoop_eq_fileError env a L S next msg (by simpa using hemp) hlt hd hf] at hres
    simp at hres
  | case5 a L S hemp hlt next hd succ fr hf hfre msg hft =>
    intro b ha hres
    rw [syncLoop_eq_ftError env a L S next fr msg (by simpa using hemp) hlt hd
          hf hfre hft] at hres
    simp at hres
  | case6 a L S hemp hlt next hd succ fr hf hfre ftr hft hftre =>
    intro b ha hres
    rw [syncLoop_eq_done env a L S next fr ftr (by simpa using hemp) hlt hd hf
          hfre hft hftre] at hres
    simp at hres
  | case7 a L S hemp hlt next hd succ fr hf hfre ftr hft hftre ih =>
    intro b ha hres
    rw [syncLoop_eq_ftResync env a L S next fr ftr (by simpa using hemp) hlt hd
          hf hfre hft (by simpa using hftre)] at hres
    exact ih b (by omega) hres
  | case8 a L S hemp hlt next hd succ fr hf hfre ih =>
    intro b ha hres
    rw [syncLoop_eq_fileResync env a L S next fr (by simpa using hemp) hlt hd
          hf (by simpa using hfre)] at hres
    exact ih b (by omega) hres

/-- C2: the retry loop checks the attempt counter at the top of each pass and
aborts with the attempt-budget error before running any phase once it exceeds
3; a session started at attempt 1 can only abort at attempt 4, every recorded
pass began at attempt at most 3, and under an unbounded stream of resync
signals the session runs passes 1, 2, 3 and then aborts with the budget
error, full-text never having run. -/
theorem C2_attempt_budget :
    (∀ (env : SyncEnv) (a : Nat) (L S : List Nat),
       L ≠ [] → 3 < a → syncLoop env a L S = (.tooManyAttempts a, [])) ∧
    (∀ (env : SyncEnv) (libs : List Nat) (b : Nat),
       (syncLoop env 1 libs libs).1 = .tooManyAttempts b → b = 4) ∧
    (∀ (env : SyncEnv) (libs : List Nat) (t : AttemptTrace),
       t ∈ (syncLoop env 1 libs libs).2 → t.attempt ≤ 3) ∧
    ((syncLoop alwaysResyncEnv 1 [1] [1]).1 = .tooManyAttempts 4 ∧
     (syncLoop alwaysResyncEnv 1 [1] [1]).2.map AttemptTrace.attempt = [1, 2, 3] ∧
     ∀ t ∈ (syncLoop alwaysResyncEnv 1 [1] [1]).2, t.fullTextInput = none) := by
  refine ⟨?_, ?_, ?_, ?_, ?_, ?_⟩
  · intro env a L S hne hlt
    exact syncLoop_eq_budget env a L S (by simpa using hne) hlt
  · intro env libs b hres
    exact syncLoop_tooMany_eq_four env 1 libs libs b (by omega) hres
  · intro env libs t ht
    exact (syncLoop_trace_attempts env 1 libs libs t ht).2
  · simp [syncLoop, alwaysResyncEnv, arrayDiff]
  · simp [syncLoop, alwaysResyncEnv, arrayDiff]
  · simp [syncLoop, alwaysResyncEnv, arrayDiff]

/-- Witness for `C2_attempt_budget`: the budget equation at a concrete
over-budget state. -/
theorem C2_attempt_budget_witness :
    (([3] : List Nat) ≠ [] ∧ 3 < 5) ∧
    syncLoop alwaysResyncEnv 5 [3] [3] = (.tooManyAttempts 5, []) :=
  ⟨⟨by decide, by decide⟩,
   C2_attempt_budget.1 alwaysResyncEnv 5 [3] [3] (by decide) (by decide)⟩

/-- C3: in every pass of the retry loop, the working set handed to the file
phase is exactly (hence a subset of) the set the data phase returned, and
whenever the full-text phase runs its input is exactly the current
`successfulLibraries` set as updated by the data-phase bookkeeping, untouched
by the file phase's result. -/
theorem C3_phase_handoff (env : SyncEnv) :
    ∀ (a : Nat) (L S : List Nat) (t : AttemptTrace),
      t ∈ (syncLoop env a L S).2 →
      t.fileInput = t.dataOutput ∧
      (∀ s, t.fullTextInput = some s → t.successfulAfterData = some s) := by
  intro a L S
  induction a, L, S using syncLoop.induct env with
  | case1 a L S hemp =>
    intro t ht
    rw [syncLoop_eq_empty env a L S hemp] at ht
    simp at ht
  | case2 a L S hemp hlt =>
    intro t ht
    rw [syncLoop_eq_budget env a L S (by simpa using hemp) hlt] at ht
    simp at ht
  | case3 a L S hemp hlt msg hd =>
    intro t ht
    rw [syncLoop_eq_dataError env a L S msg (by simpa using hemp) hlt hd] at ht
    simp at ht
    subst ht
    simp
  | case4 a L S hemp hlt next hd msg hf =>
    intro t ht
    rw [syncLoop_eq_fileError env a L S next msg (by simpa using hemp) hlt hd hf] at ht
    simp at ht
    subst ht
    simp
  | case5 a L S hemp hlt next hd succ fr hf hfre msg hft =>
    intro t ht
    rw [syncLoop_eq_ftError env a L S next fr msg (by simpa using hemp) hlt hd
          hf hfre hft] at ht
    simp at ht
    subst ht
    simp
  | case6 a L S hemp hlt next hd succ fr hf hfre ftr hft hftre =>
    intro t ht
    rw [syncLoop_eq_done env a L S next fr ftr (by simpa using hemp) hlt hd hf
          hfre hft hftre] at ht
    simp at ht
    subst ht
    simp
  | case7 a L S hemp hlt next hd succ fr hf hfre ftr hft hftre ih =>
    intro t ht
    rw [syncLoop_eq_ftResync env a L S next fr ftr (by simpa using hemp) hlt hd
          hf hfre hft (by simpa using hftre)] at ht
    rcases List.mem_cons.mp ht with rfl | hmem
    · exact ⟨rfl, fun s hs => hs⟩
    · exact ih t hmem
  | case8 a L S hemp hlt next hd succ fr hf hfre ih =>
    intro t ht
    rw [syncLoop_eq_fileResync env a L S next fr (by simpa using hemp) hlt hd
          hf (by simpa using hfre)] at ht
    rcases List.mem_cons.mp ht with rfl | hmem
    · refine ⟨rfl, fun s hs => by simp at hs⟩
    · exact ih t hmem

/-- Witness for `C3_phase_handoff` at a concrete trace entry of the
always-resync scenario. -/
theorem C3_phase_handoff_witness :
    resyncTrace1 ∈ (syncLoop alwaysResyncEnv 1 [1] [1]).2 ∧
    (resyncTrace1.fileInput = resyncTrace1.dataOutput ∧
     ∀ s, resyncTrace1.fullTextInput = some s →
       resyncTrace1.successfulAfterData = some s) :=
  have hm : resyncTrace1 ∈ (syncLoop alwaysResyncEnv 1 [1] [1]).2 := by
    simp [syncLoop, alwaysResyncEnv, arrayDiff, resyncTrace1]
  ⟨hm, C3_phase_handoff alwaysResyncEnv 1 [1] [1] resyncTrace1 hm⟩

/-- One non-fatal step of the severity loop rewrites to the tail with the
updated accumulator. -/
theorem getPrimaryErrorTypeLoop_step (e : SyncError) (rest : List SyncError)
    (state : Option ErrType) (hef : e.fatal = false) :
    getPrimaryErrorTypeLoop (e :: rest) state =
      getPrimaryErrorTypeLoop rest (nextState e state) := by
  cases het : e.errorType with
  | none => simp [getPrimaryErrorTypeLoop, nextState, hef, het]
  | some t =>
    by_cases hv : errorTypesVal t < 0
    · simp [getPrimaryErrorTypeLoop, nextState, hef, het, hv]
    · cases state with
      | none => simp [getPrimaryErrorTypeLoop, nextState, hef, het, hv]
      | some s =>
        by_cases hc : errorTypesVal s < errorTypesVal t <;>
          simp [getPrimaryErrorTypeLoop, nextState, hef, het, hv, hc]

/-- Any fatal error anywhere in the list short-circuits the severity loop to
`'error'`, whatever the accumulator. -/
theorem getPrimaryErrorTypeLoop_fatal :
    ∀ (errors : List SyncError) (state : Option ErrType),
      (∃ e ∈ errors, e.fatal = true) →
      getPrimaryErrorTypeLoop errors state = some .error := by
  intro errors
  induction errors with
  | nil =>
    rintro state ⟨e, he, -⟩
    simp at he
  | cons a rest ih =>
    rintro state ⟨f, hf, hfat⟩
    cases haf : a.fatal with
    | true => simp [getPrimaryErrorTypeLoop, haf]
    | false =>
      rw [getPrimaryErrorTypeLoop_step a rest state haf]
      rcases List.mem_cons.mp hf with rfl | hmem
      · rw [haf] at hfat
        cases hfat
      · exact ih _ ⟨f, hmem, hfat⟩

/-- With no fatal error present, the severity loop computes exactly the
maximum contributing type (relative to the accumulator): it returns `none`
iff nothing contributes and the accumulator is empty, and any returned type
is a contributing type (or the accumulator) dominating all contributing
types and the accumulator. -/
theorem getPrimaryErrorTypeLoop_noFatal :
    ∀ (errors : List SyncError) (state : Option ErrType),
      (∀ e ∈ errors, e.fatal = false) →
      ((getPrimaryErrorTypeLoop errors state = none ↔
         (state = none ∧ contributingTypes errors = [])) ∧
       (∀ t, getPrimaryErrorTypeLoop errors state = some t →
          (t ∈ contributingTypes errors ∨ state = some t) ∧
          (∀ u ∈ contributingTypes errors,
            errorTypesVal u ≤ errorTypesVal t) ∧
          (∀ s, state = some s → errorTypesVal s ≤ errorTypesVal t))) := by
  intro errors
  induction errors with
  | nil =>
    intro state _
    constructor
    · simp [getPrimaryErrorTypeLoop, contributingTypes]
    · intro t ht
      simp only [getPrimaryErrorTypeLoop] at ht
      refine ⟨Or.inr ht, by simp [contributingTypes], ?_⟩
      intro s hs
      rw [ht] at hs
      injection hs with h
      rw [h]
  | cons a rest ih =>
    intro state hnf
    have haf : a.fatal = false := hnf a (List.mem_cons_self a rest)
    have hnf2 : ∀ e ∈ rest, e.fatal = false :=
      fun e he => hnf e (List.mem_cons_of_mem a he)
    rw [getPrimaryErrorTypeLoop_step a rest state haf]
    cases het : a.errorType with
    | none =>
      rw [show nextState a state = state from by simp [nextState, het]]
      rw [show contributingTypes (a :: rest) = contributingTypes rest from by
            simp [contributingTypes, het]]
      exact ih state hnf2
    | some t0 =>
      by_cases hv : errorTypesVal t0 < 0
      · rw [show nextState a state = state from by simp [nextState, het, hv]]
        rw [show contributingTypes (a :: rest) = contributingTypes rest from by
              simp [contributingTypes, het, hv]]
        exact ih state hnf2
      · rw [show contributingTypes (a :: rest) = t0 :: contributingTypes rest from by
              simp [contributingTypes, het, hv]]
        cases state with
        | none =>
          rw [show nextState a none = some t0 from by simp [nextState, het, hv]]
          have IH := ih (some t0) hnf2
          constructor
          · constructor
            · intro h0
              exact absurd (IH.1.mp h0).1 (by simp)
            · rintro ⟨-, hcontr⟩
              exact absurd hcontr (List.cons_ne_nil _ _)
          · intro t ht
            obtain ⟨hmem, hall, hstate⟩ := IH.2 t ht
            refine ⟨?_, ?_, ?_⟩
            · rcases hmem with hm | hm
              · exact Or.inl (List.mem_cons_of_mem _ hm)
              · injection hm with h
                exact Or.inl (h ▸ List.mem_cons_self _ _)
            · intro u hu
              rcases List.mem_cons.mp hu with rfl | hu2
              · exact hstate u rfl
              · exact hall u hu2
            · intro s hs
              cases hs
        | some s0 =>
          by_cases hc : errorTypesVal s0 < errorTypesVal t0
          · rw [show nextState a (some s0) = some t0 from by
                  simp [nextState, het, hv, hc]]
            have IH := ih (some t0) hnf2
            constructor
            · constructor
              · intro h0
                exact absurd (IH.1.mp h0).1 (by simp)
              · rintro ⟨h1, -⟩
                cases h1
            · intro t ht
              obtain ⟨hmem, hall, hstate⟩ := IH.2 t ht
              have ht0 := hstate t0 rfl
              refine ⟨?_, ?_, ?_⟩
              · rcases hmem with hm | hm
                · exact Or.inl (List.mem_cons_of_mem _ hm)
                · injection hm with h
                  exact Or.inl (h ▸ List.mem_cons_self _ _)
              · intro u hu
                rcases List.mem_cons.mp hu with rfl | hu2
                · exact ht0
                · exact hall u hu2
              · intro s hs
                injection hs with h
                rw [← h]
                omega
          · rw [show nextState a (some s0) = some s0 from by
                  simp [nextState, het, hv, hc]]
            have IH := ih (some s0) hnf2
            constructor
            · constructor
              · intro h0
                exact absurd (IH.1.mp h0).1 (by simp)
              · rintro ⟨h1, -⟩
                cases h1
            · intro t ht
              obtain ⟨hmem, hall, hstate⟩ := IH.2 t ht
              have hs0 := hstate s0 rfl
              refine ⟨?_, ?_, ?_⟩
              · rcases hmem with hm | hm
                · exact Or.inl (List.mem_cons_of_mem _ hm)
                · exact Or.inr hm
              · intro u hu
                rcases List.mem_cons.mp hu with rfl | hu2
                · omega
                · exact hall u hu2
              · exact hstate

/-- C4, counterexample: on a single fatal error of declared type `upgrade`,
`getPrimaryErrorType` returns `'error'`, not the highest severity
(`upgrade`) demanded by the claim. -/
theorem C4_counterexample :
    getPrimaryErrorType [upgradeFatalError] = some ErrType.error ∧
    upgradeFatalError.fatal = true ∧
    highestSeverity [upgradeFatalError] = some ErrType.upgrade ∧
    ErrType.error ≠ ErrType.upgrade := by
  refine ⟨rfl, rfl, rfl, by decide⟩

/-- C4, amended: any fatal error anywhere makes `getPrimaryErrorType` return
the fixed type `'error'` (not the maximum of the precedence order); with no
fatal error it returns `false` exactly when no error contributes (absent
`errorType` and the pseudo-type `animate` never contribute), and otherwise a
contributing type of maximal precedence under
`info(1) < warning(2) < error(3) < upgrade(4)`. -/
theorem C4_amended (errors : List SyncError) :
    ((∃ e ∈ errors, e.fatal = true) →
       getPrimaryErrorType errors = some ErrType.error) ∧
    ((∀ e ∈ errors, e.fatal = false) →
       ((getPrimaryErrorType errors = none ↔ contributingTypes errors = []) ∧
        (∀ t, getPrimaryErrorType errors = some t →
           t ∈ contributingTypes errors ∧
           ∀ u ∈ contributingTypes errors,
             errorTypesVal u ≤ errorTypesVal t))) := by
  constructor
  · exact getPrimaryErrorTypeLoop_fatal errors none
  · intro hnf
    have H := getPrimaryErrorTypeLoop_noFatal errors none hnf
    constructor
    · constructor
      · intro h0
        exact (H.1.mp h0).2
      · intro hc
        exact H.1.mpr ⟨rfl, hc⟩
    · intro t ht
      obtain ⟨hmem, hall, -⟩ := H.2 t ht
      rcases hmem with hm | hm
      · exact ⟨hm, hall⟩
      · cases hm

/-- Witness for `C4_amended` on `[warning, info]` with no fatal flag: the
result is `warning`, a maximal contributing type. -/
theorem C4_amended_witness :
    (∀ e ∈ [warningError, infoError], e.fatal = false) ∧
    getPrimaryErrorType [warningError, infoError] = some ErrType.warning ∧
    (ErrType.warning ∈ contributingTypes [warningError, infoError] ∧
     ∀ u ∈ contributingTypes [warningError, infoError],
       errorTypesVal u ≤ errorTypesVal ErrType.warning) := by
  have hno : ∀ e ∈ [warningError, infoError], e.fatal = false := by decide
  exact ⟨hno, rfl,
    ((C4_amended [warningError, infoError]).2 hno).2 ErrType.warning rfl⟩

end ZoteroSync
